import Mathlib

/-!
Verification development for the airways.gg repository.

Shallow embedding of the two source files:

* `src/alpha_testing/reper.py` — the schedule fetcher `fetch_flights`.
  The browser/network environment is modelled as an explicit `FetchEnv`
  record: which responses the page emits (in the order the observer sees
  them), whether navigation fails, whether the arrivals click fails, and
  the wall-clock duration of each external operation.  The function then
  mirrors the Python control flow deterministically over that
  environment.

  Modelling notes, matching Python semantics:
  - `page.on('response', on_response)` is registered before `page.goto`,
    so responses observed during a failing navigation are still processed
    by the observer before the navigation exception propagates.
  - `async with async_playwright()` releases the session scope on every
    exit path (normal return and propagated exception);
    `await browser.close()` is only reached when no exception escaped the
    body before it.
  - `page.click` inside the recovery branch may itself wait (the code does
    not bound it); when the click raises, the bare `except` catches it and
    the 4-second recovery sleep is skipped.
  - `if not target_date` and `if not captured_data` use Python truthiness:
    `None` and the empty string are both falsy.

* `src/apps/ml-service/main.py` — the `/predict` and `/predict/batch`
  endpoint bodies.  The request/response pydantic models become
  structures; `probability` (a Python float with exact value 0.75) is
  modelled as a rational.
-/

namespace Airways

/-! ### Basic string machinery: Python's substring containment test -/

/-- Whether the first list is a leading block of the second
(cf. Python `str.startswith`, used to build substring containment). -/
def charsLeadMatch : List Char → List Char → Bool
  | [], _ => true
  | _ :: _, [] => false
  | p :: ps, c :: cs => p == c && charsLeadMatch ps cs

/-- Whether `pat` occurs contiguously somewhere in the second list. -/
def charsHasSub (pat : List Char) : List Char → Bool
  | [] => charsLeadMatch pat []
  | c :: cs => charsLeadMatch pat (c :: cs) || charsHasSub pat cs

/-- Python's `pat in s` substring containment on strings. -/
def strContains (s pat : String) : Bool :=
  charsHasSub pat.data s.data

/-! ### Schedule fetcher (src/alpha_testing/reper.py) -/

/-- Outcome of `await response.text()` for one intercepted response:
either the body string, or the exception message when reading fails. -/
inductive ReadOutcome where
  | ok (body : String)
  | readError (msg : String)
  deriving DecidableEq

/-- One network response observed by the page: its URL and what happens
when the observer tries to read its body. -/
structure Response where
  url : String
  text : ReadOutcome
  deriving DecidableEq

/-- Console output events, one constructor per `print` in the source. -/
inductive LogEvent where
  | loadingPage (direction targetDate : String)
  | captured (charCount : Nat) (url : String)
  | readErrorLog (msg : String)
  | couldNotClickArrivals
  deriving DecidableEq

/-- The URL filter in `on_response`: `'/api/schedule' in response.url`. -/
def matchesSchedule (url : String) : Bool :=
  strContains url "/api/schedule"

/-- One invocation of the `on_response` observer on state
`(captured_data, console log)`: a matching URL overwrites the slot on a
successful body read and logs the capture; a failing read is caught and
logged, leaving the slot unchanged; a non-matching URL does nothing. -/
def on_response (state : Option String × List LogEvent) (r : Response) :
    Option String × List LogEvent :=
  if matchesSchedule r.url then
    match r.text with
    | .ok body => (some body, state.2 ++ [.captured body.length r.url])
    | .readError msg => (state.1, state.2 ++ [.readErrorLog msg])
  else state

/-- The observer applied to a sequence of responses in arrival order. -/
def processResponses (state : Option String × List LogEvent)
    (rs : List Response) : Option String × List LogEvent :=
  rs.foldl on_response state

/-- Python truthiness of `captured_data` / `target_date`:
`None` and `""` are falsy, any other string is truthy. -/
def pyTruthy : Option String → Bool
  | none => false
  | some s => !s.isEmpty

/-- Embedding of `if not target_date: target_date = date.today().isoformat()`:
an unset or empty-string date is replaced by today's date. -/
def resolveTargetDate (target_date : Option String) (today : String) : String :=
  match target_date with
  | none => today
  | some s => if s.isEmpty then today else s

/-- Timeout of `page.goto` (`timeout=60000`), in milliseconds. -/
def navTimeoutMs : Nat := 60000

/-- The unconditional `await asyncio.sleep(5)` settle delay. -/
def settleDelayMs : Nat := 5000

/-- The `await asyncio.sleep(4)` delay after clicking the arrivals tab. -/
def recoveryDelayMs : Nat := 4000

/-- The environment of one `fetch_flights` call: what the outside world
(browser, network, clock) does during the call. Durations are in
milliseconds; `navMs` is the time `page.goto` would need, which the
60-second timeout caps. -/
structure FetchEnv where
  today : String
  setupMs : Nat
  navFails : Bool
  navMs : Nat
  navResponses : List Response
  clickFails : Bool
  clickMs : Nat
  clickResponses : List Response
  closeMs : Nat
  stopMs : Nat
  deriving DecidableEq

/-- Everything observable about one `fetch_flights` call:
the returned value (`Except.error` = the navigation exception propagated
to the caller), whether the playwright scope was exited, whether
`browser.close()` was reached, whether the arrivals click was attempted,
the console log, and the elapsed wall-clock time. -/
structure FetchOutcome where
  result : Except Unit (Option String)
  sessionReleased : Bool
  browserCloseCalled : Bool
  clickAttempted : Bool
  logs : List LogEvent
  elapsedMs : Nat

/-- Shallow embedding of `fetch_flights(direction, target_date)` from
src/alpha_testing/reper.py, as a deterministic function of the
environment. -/
def fetch_flights (direction : String) (target_date : Option String)
    (env : FetchEnv) : FetchOutcome :=
  let td := resolveTargetDate target_date env.today
  let logs0 : List LogEvent := [.loadingPage direction td]
  let gotoMs := min env.navMs navTimeoutMs
  if env.navFails then
    -- page.goto raises: responses seen before the failure were already
    -- processed by the observer, but the exception propagates, skipping
    -- the sleeps, the recovery branch and browser.close(); the
    -- async-with scope still exits.
    let st := processResponses (none, logs0) env.navResponses
    { result := .error ()
      sessionReleased := true
      browserCloseCalled := false
      clickAttempted := false
      logs := st.2
      elapsedMs := env.setupMs + gotoMs + env.stopMs }
  else
    let st := processResponses (none, logs0) env.navResponses
    let recovery := direction == "arr" && !(pyTruthy st.1)
    let st2 := if recovery then processResponses st env.clickResponses else st
    let logs2 :=
      if recovery && env.clickFails then st2.2 ++ [.couldNotClickArrivals]
      else st2.2
    let recMs :=
      if recovery then
        env.clickMs + (if env.clickFails then 0 else recoveryDelayMs)
      else 0
    { result := .ok st2.1
      sessionReleased := true
      browserCloseCalled := true
      clickAttempted := recovery
      logs := logs2
      elapsedMs := env.setupMs + gotoMs + settleDelayMs + recMs +
        env.closeMs + env.stopMs }

/-! ### ML service (src/apps/ml-service/main.py) -/

/-- The `PredictionRequest` pydantic model; the optional dicts are modelled
as opaque association lists. -/
structure PredictionRequest where
  flight_id : Int
  weather_data : Option (List (String × String))
  flight_features : Option (List (String × String))
  deriving DecidableEq

/-- The `PredictionResponse` pydantic model. -/
structure PredictionResponse where
  flight_id : Int
  probability : ℚ
  confidence : String
  predicted_delay_minutes : Int
  model_version : String
  deriving DecidableEq

/-- Body of the `/predict` endpoint. -/
def predict (request : PredictionRequest) : PredictionResponse :=
  { flight_id := request.flight_id
    probability := 0.75
    confidence := "medium"
    predicted_delay_minutes := 15
    model_version := "1.0.0" }

/-- The `BatchPredictionRequest` pydantic model. -/
structure BatchPredictionRequest where
  flights : List PredictionRequest
  deriving DecidableEq

/-- Body of the `/predict/batch` endpoint: the `results = []; for flight
in request.flights: results.append({...})` loop, as a left fold. -/
def predict_batch (request : BatchPredictionRequest) : List PredictionResponse :=
  request.flights.foldl
    (fun results flight =>
      results ++ [{ flight_id := flight.flight_id
                    probability := 0.75
                    confidence := "medium"
                    predicted_delay_minutes := 15
                    model_version := "1.0.0" }])
    []

/-! ### Derived descriptions of the observer (used to state the claims) -/

/-- The payload `on_response` would store for one response: `some body`
for a matching response whose body read succeeds, `none` otherwise. -/
def responseBody (r : Response) : Option String :=
  if matchesSchedule r.url then
    match r.text with
    | .ok body => some body
    | .readError _ => none
  else none

/-- The log entry `on_response` emits for one response, if any. -/
def responseLog (r : Response) : Option LogEvent :=
  if matchesSchedule r.url then
    match r.text with
    | .ok body => some (.captured body.length r.url)
    | .readError msg => some (.readErrorLog msg)
  else none

/-- The slot transition of one observer call, the payload component of
`on_response`. -/
def slotStep (slot : Option String) (r : Response) : Option String :=
  if matchesSchedule r.url then
    match r.text with
    | .ok body => some body
    | .readError _ => slot
  else slot

/-- Spec-shaped description of the capture slot after a run: the body of
the LAST matching response whose body read succeeded, if any. -/
def specLastCapture (rs : List Response) : Option String :=
  (rs.filterMap responseBody).getLast?

/-- The responses actually processed by the observer during a call:
those seen around navigation and the settle sleep, plus those seen
during the recovery window when the arrivals click was attempted. -/
def observed (direction : String) (target_date : Option String)
    (env : FetchEnv) : List Response :=
  env.navResponses ++
    (if (fetch_flights direction target_date env).clickAttempted then
      env.clickResponses
    else [])

/-- The value of `captured_data` at the recovery check, i.e. after the
settle sleep (the log component of the state is irrelevant to it). -/
def settledSlot (env : FetchEnv) : Option String :=
  (processResponses (none, []) env.navResponses).1

/-- Date resolution as the spec words it: an unset date resolves to
today's date; a provided value is used.  (Stated separately from
`resolveTargetDate`, which embeds the code, to compare the two.) -/
def specResolveDate (target_date : Option String) (today : String) : String :=
  match target_date with
  | none => today
  | some s => s

/-! ### Concrete environments and responses for witnesses -/

/-- A quiet environment: navigation succeeds instantly, no responses,
every external operation takes no time. -/
def baseEnv : FetchEnv :=
  { today := "2026-02-03"
    setupMs := 0
    navFails := false
    navMs := 0
    navResponses := []
    clickFails := false
    clickMs := 0
    clickResponses := []
    closeMs := 0
    stopMs := 0 }

/-- A matching schedule response carrying an XML body. -/
def respXml : Response :=
  { url := "https://www.aurigny.com/api/schedule?direction=dep"
    text := .ok "<flights></flights>" }

/-- A matching response whose body read fails. -/
def respErr : Response :=
  { url := "https://www.aurigny.com/api/schedule?direction=dep"
    text := .readError "body stream closed" }

/-- Two matching responses arriving in order, bodies "a" then "b". -/
def envTwo : FetchEnv :=
  { baseEnv with
    navResponses :=
      [{ url := "https://www.aurigny.com/api/schedule?page=1", text := .ok "a" }
       , { url := "https://www.aurigny.com/api/schedule?page=2", text := .ok "b" }] }

/-- One matching response with an XML body. -/
def envOne : FetchEnv := { baseEnv with navResponses := [respXml] }

/-- An environment whose navigation fails. -/
def envNavFail : FetchEnv := { baseEnv with navFails := true }

/-- An environment in which the arrivals click raises. -/
def envClickFail : FetchEnv := { baseEnv with clickFails := true }

/-- Navigation succeeds just under the timeout, the arrivals control
takes 30 seconds to (not) turn up, teardown is instantaneous. -/
def envSlowClick : FetchEnv :=
  { baseEnv with navMs := 59999, clickMs := 30000 }

/-! ### Lemmas about the observer -/

lemma on_response_eq (slot : Option String) (logs : List LogEvent) (r : Response) :
    on_response (slot, logs) r = (slotStep slot r, logs ++ (responseLog r).toList) := by
  unfold on_response slotStep responseLog
  cases h : matchesSchedule r.url
  · simp
  · cases r.text <;> simp

lemma slotStep_eq (slot : Option String) (r : Response) :
    slotStep slot r = match responseBody r with
      | some b => some b
      | none => slot := by
  unfold slotStep responseBody
  cases h : matchesSchedule r.url
  · simp
  · cases r.text <;> simp

lemma processResponses_eq (rs : List Response) : ∀ slot logs,
    processResponses (slot, logs) rs =
      (rs.foldl slotStep slot, logs ++ rs.filterMap responseLog) := by
  induction rs with
  | nil => intro slot logs; simp [processResponses]
  | cons r rs ih =>
    intro slot logs
    show processResponses (on_response (slot, logs) r) rs = _
    rw [on_response_eq, ih]
    cases h : responseLog r <;>
      simp [List.filterMap_cons, h, List.append_assoc]

lemma getLast?_cons_match {α : Type} (a : α) (l : List α) :
    (a :: l).getLast? = match l.getLast? with
      | some x => some x
      | none => some a := by
  induction l generalizing a with
  | nil => rfl
  | cons b l ih =>
    rw [List.getLast?_cons_cons, ih b]
    cases h : l.getLast? <;> simp

lemma foldl_slotStep_eq (rs : List Response) : ∀ slot,
    rs.foldl slotStep slot = match specLastCapture rs with
      | some b => some b
      | none => slot := by
  induction rs with
  | nil => intro slot; rfl
  | cons r rs ih =>
    intro slot
    rw [List.foldl_cons, ih, slotStep_eq]
    unfold specLastCapture
    rw [List.filterMap_cons]
    cases h : responseBody r with
    | none => simp
    | some b =>
      rw [getLast?_cons_match]
      cases hg : (rs.filterMap responseBody).getLast? <;> simp

lemma settledSlot_eq (env : FetchEnv) :
    settledSlot env = env.navResponses.foldl slotStep none := by
  unfold settledSlot
  rw [processResponses_eq]

lemma match_none_id (o : Option String) :
    (match o with | some b => some b | none => (none : Option String)) = o := by
  cases o <;> rfl

lemma clickAttempted_eq (d : String) (td : Option String) (env : FetchEnv)
    (h : env.navFails = false) :
    (fetch_flights d td env).clickAttempted =
      (d == "arr" && !(pyTruthy (settledSlot env))) := by
  unfold fetch_flights
  rw [settledSlot_eq]
  simp [h, processResponses_eq]

lemma foldl_slotStep_none (rs : List Response) :
    rs.foldl slotStep none = specLastCapture rs := by
  rw [foldl_slotStep_eq]
  exact match_none_id _

lemma specLastCapture_append (l1 l2 : List Response) :
    specLastCapture (l1 ++ l2) = match specLastCapture l2 with
      | some b => some b
      | none => specLastCapture l1 := by
  have h1 := foldl_slotStep_none (l1 ++ l2)
  rw [List.foldl_append, foldl_slotStep_eq, foldl_slotStep_none] at h1
  exact h1.symm

lemma fetchResult_eq_specLastCapture (d : String) (td : Option String)
    (env : FetchEnv) (h : env.navFails = false) :
    (fetch_flights d td env).result =
      Except.ok (specLastCapture (observed d td env)) := by
  have hca := clickAttempted_eq d td env h
  unfold observed
  rw [hca, settledSlot_eq, foldl_slotStep_none]
  unfold fetch_flights
  simp only [h, Bool.false_eq_true, if_false]
  rw [processResponses_eq]
  cases hc : (d == "arr" && !(pyTruthy (specLastCapture env.navResponses)))
  · simp only [hc, Bool.false_eq_true, if_false]
    have hcond : ¬(d = "arr" ∧ pyTruthy (specLastCapture env.navResponses) = false) := by
      simpa using hc
    simp [processResponses_eq, foldl_slotStep_none, hcond]
  · simp only [hc, if_true]
    have hcond : d = "arr" ∧ pyTruthy (specLastCapture env.navResponses) = false := by
      simpa using hc
    simp [processResponses_eq, foldl_slotStep_none, foldl_slotStep_eq, hcond,
      match_none_id, specLastCapture_append]

lemma filterMap_responseBody (l : List Response) :
    l.filterMap responseBody =
      (l.filter (fun x => matchesSchedule x.url)).filterMap
        (fun x => match x.text with
          | ReadOutcome.ok body => some body
          | ReadOutcome.readError _ => none) := by
  induction l with
  | nil => rfl
  | cons r l ih =>
    rw [List.filterMap_cons, List.filter_cons, ih]
    cases h : matchesSchedule r.url
    · simp [responseBody, h]
    · cases ht : r.text <;> simp [responseBody, h, ht, List.filterMap_cons]

/-! ### The claims -/

/-- C1, counterexample: in `envTwo` two responses matching
`/api/schedule` arrive, with bodies "a" then "b", and both reads
succeed; the fetch returns "b", the body of the SECOND matching
response, so the first-captured body did not survive. -/
theorem C1_counterexample :
    envTwo.navResponses.filterMap responseBody = ["a", "b"] ∧
    (fetch_flights "dep" none envTwo).result = Except.ok (some "b") ∧
    ("b" : String) ≠ "a" :=
  ⟨rfl, rfl, by decide⟩

/-- C1 (amended): every successfully-read matching response overwrites
the capture slot, so the payload returned by a fetch whose navigation
succeeds is the body of the LAST matching response whose body read
succeeded (last-writer-wins, not first-writer-wins). -/
theorem C1_lastWriterWins (d : String) (td : Option String) (env : FetchEnv)
    (h : env.navFails = false) :
    (fetch_flights d td env).result =
      Except.ok (specLastCapture (observed d td env)) :=
  fetchResult_eq_specLastCapture d td env h

theorem C1_lastWriterWins_witness :
    envTwo.navFails = false ∧
    (fetch_flights "dep" none envTwo).result =
      Except.ok (specLastCapture (observed "dep" none envTwo)) :=
  ⟨rfl, C1_lastWriterWins "dep" none envTwo rfl⟩

/-- C3: if navigation succeeds, exactly one observed response matches
the schedule URL filter, and its body read succeeds with body `b`, then
the fetch returns exactly `b`: round-trip identity, no transformation. -/
theorem C3_roundTripIdentity (d : String) (td : Option String) (env : FetchEnv)
    (r : Response) (b : String) (h : env.navFails = false)
    (hone : (observed d td env).filter (fun x => matchesSchedule x.url) = [r])
    (hread : r.text = ReadOutcome.ok b) :
    (fetch_flights d td env).result = Except.ok (some b) := by
  rw [fetchResult_eq_specLastCapture d td env h]
  unfold specLastCapture
  rw [filterMap_responseBody, hone]
  simp [List.filterMap_cons, hread]

theorem C3_witness :
    envOne.navFails = false ∧
    (observed "dep" none envOne).filter (fun x => matchesSchedule x.url) = [respXml] ∧
    respXml.text = ReadOutcome.ok "<flights></flights>" ∧
    (fetch_flights "dep" none envOne).result =
      Except.ok (some "<flights></flights>") :=
  ⟨rfl, rfl, rfl,
    C3_roundTripIdentity "dep" none envOne respXml "<flights></flights>" rfl rfl rfl⟩

lemma pyTruthy_eq_false_iff (o : Option String) :
    pyTruthy o = false ↔ (o = none ∨ o = some "") := by
  cases o with
  | none => simp [pyTruthy]
  | some s => simp [pyTruthy, String.isEmpty_iff]

/-- C2: when navigation fails, the failure propagates with no payload —
the caller receives an absent payload, never a captured one — and the
scoped browser session is still released on that exit path. -/
theorem C2_navFailureTeardown (d : String) (td : Option String) (env : FetchEnv)
    (h : env.navFails = true) :
    (fetch_flights d td env).result = Except.error () ∧
    (fetch_flights d td env).sessionReleased = true := by
  unfold fetch_flights
  simp [h]

theorem C2_witness :
    envNavFail.navFails = true ∧
    ((fetch_flights "dep" none envNavFail).result = Except.error () ∧
      (fetch_flights "dep" none envNavFail).sessionReleased = true) :=
  ⟨rfl, C2_navFailureTeardown "dep" none envNavFail rfl⟩

/-- C4: with navigation succeeding, the arrivals recovery click is
attempted exactly when the requested direction is "arr" and the capture
slot after the settle delay is still empty (unset, or holding the empty
string — the code tests Python truthiness of `captured_data`); for
direction "dep" it is never attempted, whatever the capture state or the
navigation outcome. -/
theorem C4_recoveryCondition (d : String) (td : Option String) (env : FetchEnv) :
    (env.navFails = false →
      ((fetch_flights d td env).clickAttempted = true ↔
        (d = "arr" ∧ (settledSlot env = none ∨ settledSlot env = some "")))) ∧
    (d = "dep" → (fetch_flights d td env).clickAttempted = false) := by
  constructor
  · intro h
    rw [clickAttempted_eq d td env h]
    simp [Bool.and_eq_true, beq_iff_eq, Bool.not_eq_true', pyTruthy_eq_false_iff]
  · intro hd
    subst hd
    cases h : env.navFails
    · rw [clickAttempted_eq _ _ _ h]
      simp
    · unfold fetch_flights
      simp [h]

theorem C4_witness :
    ((fetch_flights "arr" none baseEnv).clickAttempted = true ↔
      ("arr" = "arr" ∧ (settledSlot baseEnv = none ∨ settledSlot baseEnv = some ""))) ∧
    (fetch_flights "dep" none baseEnv).clickAttempted = false :=
  ⟨(C4_recoveryCondition "arr" none baseEnv).1 rfl,
    (C4_recoveryCondition "dep" none baseEnv).2 rfl⟩

/-- C5: a matched response whose body read fails is caught and logged,
leaving the capture slot exactly as it was; a failing arrivals click is
caught and logged ("Could not click arrivals tab" is the final console
line); and the fetch propagates an exception exactly when navigation
fails — read and click failures never abort it. -/
theorem C5_nonFatalErrors (d : String) (td : Option String) (env : FetchEnv) :
    (∀ (slot : Option String) (logs : List LogEvent) (r : Response) (msg : String),
      matchesSchedule r.url = true → r.text = ReadOutcome.readError msg →
      on_response (slot, logs) r = (slot, logs ++ [LogEvent.readErrorLog msg])) ∧
    ((fetch_flights d td env).result = Except.error () ↔ env.navFails = true) ∧
    (env.clickFails = true → (fetch_flights d td env).clickAttempted = true →
      (fetch_flights d td env).logs.getLast? =
        some LogEvent.couldNotClickArrivals) := by
  refine ⟨?_, ?_, ?_⟩
  · intro slot logs r msg hm ht
    unfold on_response
    simp [hm, ht]
  · cases h : env.navFails
    · unfold fetch_flights
      simp [h]
    · unfold fetch_flights
      simp [h]
  · intro hcf hca
    cases hn : env.navFails
    · have hrec : (d == "arr" && !(pyTruthy (settledSlot env))) = true := by
        rw [← clickAttempted_eq d td env hn]
        exact hca
      rw [settledSlot_eq] at hrec
      unfold fetch_flights
      simp only [hn, Bool.false_eq_true, if_false]
      rw [processResponses_eq]
      dsimp only
      simp [hrec, hcf, List.getLast?_append_of_ne_nil]
    · unfold fetch_flights at hca
      simp [hn] at hca

theorem C5_witness :
    on_response (none, []) respErr = (none, [LogEvent.readErrorLog "body stream closed"]) ∧
    ((fetch_flights "arr" none envClickFail).result = Except.error () ↔
      envClickFail.navFails = true) ∧
    (fetch_flights "arr" none envClickFail).logs.getLast? =
      some LogEvent.couldNotClickArrivals := by
  have h := C5_nonFatalErrors "arr" none envClickFail
  exact ⟨h.1 none [] respErr "body stream closed" rfl rfl, h.2.1, h.2.2 rfl rfl⟩

/-- C6, counterexample: navigation succeeds just under its 60 s timeout
and the recovery branch runs, but locating the arrivals control takes
30 s (the code does not bound the click wait): the call takes longer
than navigation timeout + settle delay + recovery delay + teardown
time, exceeding the claimed bound. -/
theorem C6_counterexample :
    (fetch_flights "arr" none envSlowClick).elapsedMs >
      navTimeoutMs + settleDelayMs + recoveryDelayMs +
        (envSlowClick.closeMs + envSlowClick.stopMs) := by
  decide

/-- C6 (amended): the elapsed time of any fetch is bounded by navigation
timeout + settle delay + the arrivals-click wait + recovery delay +
session setup and teardown time — never more than the fixed delays plus
the durations of the individual external operations. -/
theorem C6_elapsedBound (d : String) (td : Option String) (env : FetchEnv) :
    (fetch_flights d td env).elapsedMs ≤
      env.setupMs + navTimeoutMs + settleDelayMs + env.clickMs +
        recoveryDelayMs + env.closeMs + env.stopMs := by
  have h1 : min env.navMs navTimeoutMs ≤ navTimeoutMs := Nat.min_le_right _ _
  unfold fetch_flights
  cases h : env.navFails
  · simp only [h, Bool.false_eq_true, if_false]
    split
    · split <;> omega
    · omega
  · simp only [h, if_true]
    omega

/-- C7, counterexample: with `target_date` provided as the empty string,
the fetch resolves the date to today's date (the empty string is falsy
in Python), so the provided value is not the one used, contrary to the
claim (`specResolveDate` words the claim: a provided value is used). -/
theorem C7_counterexample :
    (fetch_flights "dep" (some "") baseEnv).logs.head? =
      some (LogEvent.loadingPage "dep" "2026-02-03") ∧
    specResolveDate (some "") baseEnv.today = "" ∧
    ("2026-02-03" : String) ≠ "" :=
  ⟨rfl, rfl, by decide⟩

/-- C7 (amended): an unset OR empty-string target_date resolves to
today's date (Python falsiness of the argument); a provided non-empty
value is used verbatim.  Stated via the date recorded in the first log
line, the only observable use of the resolved date. -/
theorem C7_dateResolution (d : String) (td : Option String) (env : FetchEnv) :
    (fetch_flights d td env).logs.head? =
      some (LogEvent.loadingPage d (match td with
        | none => env.today
        | some s => if s = "" then env.today else s)) := by
  have hr : resolveTargetDate td env.today = (match td with
      | none => env.today
      | some s => if s = "" then env.today else s) := by
    unfold resolveTargetDate
    cases td with
    | none => rfl
    | some s => simp [String.isEmpty_iff]
  unfold fetch_flights
  rw [hr]
  cases h : env.navFails
  · simp only [h, Bool.false_eq_true, if_false]
    split <;> simp [processResponses_eq] <;> split <;> simp
  · simp [h, processResponses_eq]

/-- C8: the /predict endpoint echoes the request's flight_id and
otherwise returns the constants 0.75, "medium", 15 and "1.0.0",
independent of weather_data and flight_features. -/
theorem C8_predictStub (r : PredictionRequest) :
    (predict r).flight_id = r.flight_id ∧
    (predict r).probability = 0.75 ∧
    (predict r).confidence = "medium" ∧
    (predict r).predicted_delay_minutes = 15 ∧
    (predict r).model_version = "1.0.0" ∧
    ∀ (w f : Option (List (String × String))),
      predict { r with weather_data := w, flight_features := f } = predict r :=
  ⟨rfl, rfl, rfl, rfl, rfl, fun _ _ => rfl⟩

lemma foldl_append_singleton {α β : Type} (f : α → β) :
    ∀ (l : List α) (acc : List β),
      l.foldl (fun results x => results ++ [f x]) acc = acc ++ l.map f := by
  intro l
  induction l with
  | nil => intro acc; simp
  | cons x l ih => intro acc; simp [List.foldl_cons, ih]

/-- C9: the /predict/batch endpoint returns exactly the single /predict
response for each input flight, in input order — batch prediction is the
map of the single prediction over the input list. -/
theorem C9_batchMatchesSingle (req : BatchPredictionRequest) :
    predict_batch req = req.flights.map predict ∧
    (predict_batch req).length = req.flights.length := by
  have h : predict_batch req = req.flights.map predict := by
    show req.flights.foldl (fun results flight => results ++ [predict flight]) [] = _
    rw [foldl_append_singleton]
    simp
  exact ⟨h, by simp [h]⟩

/-- C10: any direction value other than "arr" behaves exactly like a
departures request: the recovery branch is never entered, and every
observable other than the direction recorded in the first log line
coincides with the "dep" run on the same environment. -/
theorem C10_nonArrLikeDep (d : String) (td : Option String) (env : FetchEnv)
    (h : d ≠ "arr") :
    (fetch_flights d td env).clickAttempted = false ∧
    (fetch_flights d td env).result = (fetch_flights "dep" td env).result ∧
    (fetch_flights d td env).elapsedMs = (fetch_flights "dep" td env).elapsedMs ∧
    (fetch_flights d td env).sessionReleased =
      (fetch_flights "dep" td env).sessionReleased ∧
    (fetch_flights d td env).browserCloseCalled =
      (fetch_flights "dep" td env).browserCloseCalled ∧
    (fetch_flights d td env).logs.tail = (fetch_flights "dep" td env).logs.tail ∧
    (fetch_flights d td env).logs.head? =
      some (LogEvent.loadingPage d (resolveTargetDate td env.today)) := by
  have hb : (d == "arr") = false := by simp [h]
  unfold fetch_flights
  cases hn : env.navFails
  · simp [hn, hb, processResponses_eq]
  · simp [hn, processResponses_eq]

theorem C10_witness :
    ("xyz" : String) ≠ "arr" ∧
    ((fetch_flights "xyz" none baseEnv).clickAttempted = false ∧
      (fetch_flights "xyz" none baseEnv).result =
        (fetch_flights "dep" none baseEnv).result ∧
      (fetch_flights "xyz" none baseEnv).elapsedMs =
        (fetch_flights "dep" none baseEnv).elapsedMs ∧
      (fetch_flights "xyz" none baseEnv).sessionReleased =
        (fetch_flights "dep" none baseEnv).sessionReleased ∧
      (fetch_flights "xyz" none baseEnv).browserCloseCalled =
        (fetch_flights "dep" none baseEnv).browserCloseCalled ∧
      (fetch_flights "xyz" none baseEnv).logs.tail =
        (fetch_flights "dep" none baseEnv).logs.tail ∧
      (fetch_flights "xyz" none baseEnv).logs.head? =
        some (LogEvent.loadingPage "xyz"
          (resolveTargetDate none baseEnv.today))) :=
  ⟨by decide, C10_nonArrLikeDep "xyz" none baseEnv (by decide)⟩

end Airways
